import Mathlib

/-!
Shallow embedding of the payment-intake broker (Bun/TypeScript sources:
`src/controllers/payments.controller.ts`, `src/services/redis-queue.ts`,
`src/services/payment-worker.ts`, `src/services/redis-summary.service.ts`,
`src/repositories/transactions.repository.ts`).

Conventions of the embedding:
* Monetary amounts are rationals (`ℚ`); the source uses JS numbers only for
  two-fractional-digit decimals, so exact rationals are faithful.
* Timestamps (`Date.now()`, sorted-set scores) are epoch milliseconds,
  embedded as `Nat`.
* Redis state is explicit: the main queue and processing list are Lean
  lists (head of the list = head of the Redis list, i.e. the `lPush` side),
  the retry sorted set is a list of (score, value) entries, and the string
  marker keys (`queue_item:<id>`, `payment_processed:<id>`,
  `payment_failed:<id>`) are association lists from correlation id to the
  TTL (seconds) the key was set with.
* `JSON.stringify`/`JSON.parse` round-trip queue items exactly, so queue
  collections hold `QueueItem` values directly instead of raw strings.
* Fallible external calls (redis connectivity, the database, processor
  HTTP responses) are modelled by explicit oracle flags passed to each
  function; a thrown JS exception becomes `Except.error`.
-/

namespace Rinha

/-- The two external payment processors. -/
inductive Processor
  | processorDefault
  | processorFallback
deriving DecidableEq, Repr

/-- A serialized queue record (`QueueItem` in `redis-queue.ts`). -/
structure QueueItem where
  correlationId : String
  amount : ℚ
  retryCount : Nat
  nextRetryAt : Nat
deriving DecidableEq, Repr

/-- A row of the `transactions` ledger table. -/
structure TxRow where
  correlationId : String
  amount : ℚ
  processor : Processor
deriving DecidableEq, Repr

/-- The durable ledger (Postgres `transactions` table) with its unique
index on `correlation_id`. -/
structure Ledger where
  rows : List TxRow
deriving DecidableEq, Repr

/-- Per-processor summary counters (the Redis hash
`summary:processor:<p>` with fields `total_requests`, `total_amount`). -/
structure Counters where
  totalRequests : Nat
  totalAmount : ℚ
deriving DecidableEq, Repr

/-- Both processors' counters. -/
structure SummaryCounters where
  cDefault : Counters
  cFallback : Counters
deriving DecidableEq, Repr

/-- Marker stores: correlation id mapped to the TTL (seconds) it was set
with.  Redis `SET k v EX ttl` overwrites; `DEL` removes. -/
def MarkerStore := List (String × Nat)

instance : DecidableEq MarkerStore := by
  unfold MarkerStore
  infer_instance

/-- Redis `SET key 1 EX ttl` on a marker store. -/
def setMarker (m : MarkerStore) (cid : String) (ttl : Nat) : MarkerStore :=
  (cid, ttl) :: m.filter (fun e => e.1 ≠ cid)

/-- Redis `DEL key` on a marker store. -/
def delMarker (m : MarkerStore) (cid : String) : MarkerStore :=
  m.filter (fun e => e.1 ≠ cid)

/-- Lookup of a marker: `some ttl` when the key exists. -/
def getMarker (m : MarkerStore) (cid : String) : Option Nat :=
  (m.find? (fun e => e.1 = cid)).map (fun e => e.2)

/-- The explicit Redis state relevant to the queue manager. -/
structure RedisState where
  mainQueue : List QueueItem
  retryQueue : List (Nat × QueueItem)
  processing : List QueueItem
  queueItemMarker : MarkerStore
  processedMarker : MarkerStore
  failedMarker : MarkerStore
deriving DecidableEq

/- ### `RedisSummaryService.incrementCounters` (redis-summary.service.ts
lines 17-29): `HINCRBY key total_requests 1` and
`HINCRBYFLOAT key total_amount amount` in one MULTI block. -/
def incrementCounters (c : SummaryCounters) (p : Processor) (amount : ℚ) :
    SummaryCounters :=
  match p with
  | .processorDefault =>
      { c with cDefault :=
          { totalRequests := c.cDefault.totalRequests + 1
            totalAmount := c.cDefault.totalAmount + amount } }
  | .processorFallback =>
      { c with cFallback :=
          { totalRequests := c.cFallback.totalRequests + 1
            totalAmount := c.cFallback.totalAmount + amount } }

/-- `INSERT INTO transactions ... ON CONFLICT (correlation_id) DO NOTHING
RETURNING correlation_id`: returns the new ledger and whether a row was
actually inserted (`result.length > 0` in the source). -/
def insertTransaction (l : Ledger) (cid : String) (amount : ℚ)
    (p : Processor) : Ledger × Bool :=
  if l.rows.any (fun r => r.correlationId = cid) then
    (l, false)
  else
    (⟨l.rows ++ [⟨cid, amount, p⟩]⟩, true)

/-- `createTransaction` (transactions.repository.ts lines 14-32): insert
with ON CONFLICT DO NOTHING, then increment the Redis summary counters
only when `result.length > 0`. -/
def createTransaction (l : Ledger) (c : SummaryCounters) (cid : String)
    (amount : ℚ) (p : Processor) : Ledger × SummaryCounters :=
  let res := insertTransaction l cid amount p
  if res.2 then
    (res.1, incrementCounters c p amount)
  else
    (res.1, c)

/- ### Queue manager (`redis-queue.ts`) -/

/-- `LREM key 1 item`: remove the first occurrence of `item`. -/
def lRemOne : List QueueItem → QueueItem → List QueueItem
  | [], _ => []
  | x :: xs, y => if x = y then xs else x :: lRemOne xs y

/-- `addToQueue` (redis-queue.ts lines 42-60).  `SET queue_item:<id> 1 NX
EX 3600`; when that returns OK, `LPUSH payment_queue item` with
`retryCount = 0` and `nextRetryAt = Date.now()`.  The TypeScript function
returns `Promise<void>`: its returned value is embedded as `Unit`.  Any
redis error is logged and rethrown, which happens exactly when the
coordination store is unreachable (`redisUp = false`). -/
def addToQueue (redisUp : Bool) (s : RedisState) (correlationId : String)
    (amount : ℚ) (now : Nat) : Except Unit (RedisState × Unit) :=
  if redisUp then
    let item : QueueItem :=
      { correlationId := correlationId, amount := amount
        retryCount := 0, nextRetryAt := now }
    if (getMarker s.queueItemMarker correlationId).isSome then
      -- SET NX did not add: nothing is pushed
      .ok (s, ())
    else
      .ok ({ s with
              queueItemMarker := setMarker s.queueItemMarker correlationId 3600
              mainQueue := item :: s.mainQueue }, ())
  else
    .error ()

/-- Maximum retry count (`maxRetries` in redis-queue.ts line 147). -/
def maxRetries : Nat := 10

/-- The backoff delay in milliseconds applied at retry count `r`
(redis-queue.ts line 160):
`Math.min(300, Math.pow(2, retryCount) * 5) * 1000`. -/
def backoffDelayMs (r : Nat) : Nat :=
  min 300 (2 ^ r * 5) * 1000

/-- `addToRetryQueue` (redis-queue.ts lines 144-173), successful-redis
path (every redis failure is caught and swallowed by the source).  First
`LREM payment_processing 1 rawItem`; then: at `retryCount ≥ maxRetries`
delete the `queue_item:` marker and set `payment_failed:` with 24-hour
TTL; otherwise `ZADD payment_retry_queue score item` with the backoff
applied and `retryCount` incremented. -/
def addToRetryQueue (s : RedisState) (now : Nat) (item : QueueItem) :
    RedisState :=
  let s1 := { s with processing := lRemOne s.processing item }
  if item.retryCount ≥ maxRetries then
    { s1 with
        queueItemMarker := delMarker s1.queueItemMarker item.correlationId
        failedMarker := setMarker s1.failedMarker item.correlationId 86400 }
  else
    let nextRetryAt := now + backoffDelayMs item.retryCount
    let newItem : QueueItem :=
      { item with retryCount := item.retryCount + 1
                  nextRetryAt := nextRetryAt }
    { s1 with retryQueue := (nextRetryAt, newItem) :: s1.retryQueue }

/-- The Lua script `GET_AND_REMOVE_RETRY_ITEMS_SCRIPT` (redis-queue.ts
lines 29-35): one atomic redis command that reads all retry-queue
entries with score ≤ now (`ZRANGEBYSCORE key 0 now`) and removes exactly
those (`ZREMRANGEBYSCORE key 0 now`). -/
def retryScriptStep (s : RedisState) (now : Nat) :
    RedisState × List QueueItem :=
  let due := (s.retryQueue.filter (fun e => e.1 ≤ now)).map (fun e => e.2)
  ({ s with retryQueue := s.retryQueue.filter (fun e => ¬ e.1 ≤ now) }, due)

/-- `LPUSH payment_processing item1 ... itemN`: each element is pushed in
turn, so the last element of the argument list ends at the head. -/
def pushProcessingStep (s : RedisState) (items : List QueueItem) :
    RedisState :=
  { s with processing := items.reverse ++ s.processing }

/-- `getRetryableItems` (redis-queue.ts lines 95-116), successful-redis
path: run the atomic script, and — as a SEPARATE second redis command —
`LPUSH` the returned items onto the processing list (only when the
script returned something).  Returns the due items. -/
def getRetryableItems (s : RedisState) (now : Nat) :
    RedisState × List QueueItem :=
  let res := retryScriptStep s now
  if res.2.isEmpty then
    (res.1, [])
  else
    (pushProcessingStep res.1 res.2, res.2)

/- ### Dispatch engine (`payment-worker.ts`) -/

/-- Per-processor health (`isFailing` field of the health snapshot). -/
structure ProcHealth where
  isFailing : Bool
deriving DecidableEq, Repr

/-- The local health snapshot returned by `getHealthStatusSync()`. -/
structure HealthStatus where
  hDefault : ProcHealth
  hFallback : ProcHealth
deriving DecidableEq, Repr

/-- Oracle for the external effects of one delivery attempt:
`attemptOk p` is `response.ok` of the POST to processor `p`
(`attemptPayment`), and `finalizeOk` is whether the ledger transaction
inside `_finalizePayment` succeeds. -/
structure DeliveryEnv where
  attemptOk : Processor → Bool
  finalizeOk : Bool

/-- The candidate list built by `processPayment` (payment-worker.ts lines
213-217): push `default` when not failing, then `fallback` when not
failing. -/
def processorsToTry (h : HealthStatus) : List Processor :=
  (if !h.hDefault.isFailing then [Processor.processorDefault] else []) ++
  (if !h.hFallback.isFailing then [Processor.processorFallback] else [])

/-- The `for (const processor of processors)` loop of `processPayment`:
attempt each candidate in order; on an accepted POST, finalize and
return (`true` on ledger success, `false` — with no further attempts —
when finalization throws).  First component: the processors actually
attempted, in order. -/
def attemptLoop (env : DeliveryEnv) : List Processor → List Processor × Bool
  | [] => ([], false)
  | p :: rest =>
      if env.attemptOk p then
        ([p], env.finalizeOk)
      else
        let r := attemptLoop env rest
        (p :: r.1, r.2)

/-- `processPayment` (payment-worker.ts lines 209-237), drain-loop
delivery attempt. -/
def processPayment (h : HealthStatus) (env : DeliveryEnv) :
    List Processor × Bool :=
  attemptLoop env (processorsToTry h)

/-- Terminal outcome of the intake-path `processPaymentAsync`. -/
inductive IntakeOutcome
  | finalized (p : Processor)
  | queuedAfterFinalizeFail (p : Processor)
  | queuedAll
deriving DecidableEq, Repr

/-- `processPaymentAsync` (payment-worker.ts lines 299-342): try
`default` when its snapshot is healthy; on accepted POST finalize (on
finalize error, enqueue and return).  Otherwise try `fallback` the same
way.  Otherwise enqueue.  First component: the processors actually
attempted, in order. -/
def processPaymentAsync (h : HealthStatus) (env : DeliveryEnv) :
    List Processor × IntakeOutcome :=
  if !h.hDefault.isFailing && env.attemptOk Processor.processorDefault then
    ([Processor.processorDefault],
     if env.finalizeOk then .finalized Processor.processorDefault
     else .queuedAfterFinalizeFail Processor.processorDefault)
  else
    let tried1 : List Processor :=
      if !h.hDefault.isFailing then [Processor.processorDefault] else []
    if !h.hFallback.isFailing && env.attemptOk Processor.processorFallback then
      (tried1 ++ [Processor.processorFallback],
       if env.finalizeOk then .finalized Processor.processorFallback
       else .queuedAfterFinalizeFail Processor.processorFallback)
    else
      let tried2 : List Processor :=
        if !h.hFallback.isFailing then [Processor.processorFallback] else []
      (tried1 ++ tried2, .queuedAll)

/- ### Intake controller (`payments.controller.ts`) -/

/-- A JavaScript value as far as the controller's payload checks observe
it: a string, a number, a boolean, or absent/undefined. -/
inductive JsValue
  | vStr (s : String)
  | vNum (q : ℚ)
  | vBool (b : Bool)
  | vUndefined
deriving DecidableEq, Repr

/-- JavaScript truthiness, as tested by `!body.correlationId`: the empty
string, the number 0 and `undefined`/`false` are falsy. -/
def JsValue.truthy : JsValue → Bool
  | .vStr s => if s = "" then false else true
  | .vNum q => if q = 0 then false else true
  | .vBool b => b
  | .vUndefined => false

/-- `typeof v === "string"`. -/
def JsValue.isString : JsValue → Bool
  | .vStr _ => true
  | _ => false

/-- `typeof v === "number"`. -/
def JsValue.isNumber : JsValue → Bool
  | .vNum _ => true
  | _ => false

/-- A `POST /payments` body as the controller receives it. -/
structure RequestBody where
  correlationId : JsValue
  amount : JsValue
deriving DecidableEq, Repr

/-- Oracle for the intake path's external state: coordination-store and
ledger reachability, and whether the duplicate markers/rows exist. -/
structure IntakeEnv where
  redisUp : Bool
  dbUp : Bool
  processedMarkerExists : Bool
  ledgerRowExists : Bool
deriving DecidableEq, Repr

/-- `isPaymentAlreadyProcessed` (payments.controller.ts lines 6-16):
`EXISTS payment:<id>`, returning `false` on any redis error
(fail-open). -/
def isPaymentAlreadyProcessed (env : IntakeEnv) : Bool :=
  if env.redisUp then env.processedMarkerExists else false

/-- `isPaymentInDatabase` (payments.controller.ts lines 18-26):
`checkPaymentExists`, returning `false` on any database error
(fail-open). -/
def isPaymentInDatabase (env : IntakeEnv) : Bool :=
  if env.dbUp then env.ledgerRowExists else false

/-- Observable result of `createPayment`: the HTTP status set, whether
`redisQueue.addToQueue` was invoked, and whether the fire-and-forget
`processPaymentAsync` was started. -/
structure CreatePaymentResult where
  status : Nat
  addToQueueCalled : Bool
  asyncDeliveryStarted : Bool
deriving DecidableEq, Repr

/-- `createPayment` (payments.controller.ts lines 92-136).  Validation:
`!body.correlationId || typeof body.correlationId !== "string" ||
typeof body.amount !== "number"` sets 400.  The duplicate checks are
commented out in this revision, so the function proceeds directly to
`addToQueue` + `processPaymentAsync` and sets 202, or 500 when the
enqueue throws (redis unreachable).  `env` is passed whole to witness
that no duplicate information influences the result. -/
def createPayment (body : RequestBody) (env : IntakeEnv) :
    CreatePaymentResult :=
  if !body.correlationId.truthy || !body.correlationId.isString
      || !body.amount.isNumber then
    { status := 400, addToQueueCalled := false, asyncDeliveryStarted := false }
  else if env.redisUp then
    { status := 202, addToQueueCalled := true, asyncDeliveryStarted := true }
  else
    { status := 500, addToQueueCalled := true, asyncDeliveryStarted := false }

/- ### Summary service (`redis-summary.service.ts`,
`transactions.repository.ts` `getSummary`, controller
`getPaymentsSummary`) -/

/-- A summary row (`TransactionSummary`): processor name with the two
counters.  The processor is a raw string, as it crosses redis. -/
structure SummaryRow where
  processor : String
  total_requests : Nat
  total_amount : ℚ
deriving DecidableEq, Repr

/-- Oracle for a summary read: redis reachability, the parsed contents of
the two counter hashes (`none` = key absent or empty, mapped to zeros),
and whether the controller's 50 ms race timed out first. -/
structure SummaryEnv where
  redisUp : Bool
  hashDefault : Option (Nat × ℚ)
  hashFallback : Option (Nat × ℚ)
  timedOut : Bool
deriving DecidableEq, Repr

/-- Zero-filling of an absent counter hash
(`redis-summary.service.ts` lines 59-75). -/
def zeroFillRow (name : String) (h : Option (Nat × ℚ)) : SummaryRow :=
  match h with
  | none => ⟨name, 0, 0⟩
  | some (r, a) => ⟨name, r, a⟩

/-- `RedisSummaryService.getSummary` (redis-summary.service.ts lines
49-80): reads both hashes, zero-fills absent ones; rethrows on redis
error. -/
def redisSummaryGetSummary (env : SummaryEnv) :
    Except Unit (List SummaryRow) :=
  if env.redisUp then
    .ok [zeroFillRow "default" env.hashDefault,
         zeroFillRow "fallback" env.hashFallback]
  else
    .error ()

/-- `getSummary` (transactions.repository.ts lines 42-63): returns the
redis summary for both filtered and unfiltered queries; on any error,
the emergency fallback of zeros for both processors — it never
throws. -/
def transactionsGetSummary (env : SummaryEnv) : List SummaryRow :=
  match redisSummaryGetSummary env with
  | .ok rows => rows
  | .error _ => [⟨"default", 0, 0⟩, ⟨"fallback", 0, 0⟩]

/-- The controller's response shape
`{default: {totalRequests, totalAmount}, fallback: {...}}`. -/
structure SummaryOut where
  sDefault : Counters
  sFallback : Counters
deriving DecidableEq, Repr

/-- The zero-initialized summary object of the controller. -/
def zeroSummaryOut : SummaryOut :=
  ⟨⟨0, 0⟩, ⟨0, 0⟩⟩

/-- The `for (const row of result)` loop of `getPaymentsSummary`: rows
whose processor is neither `default` nor `fallback` are ignored. -/
def foldSummaryRows : List SummaryRow → SummaryOut → SummaryOut
  | [], acc => acc
  | row :: rest, acc =>
      let acc1 :=
        if row.processor = "default" then
          { acc with sDefault := ⟨row.total_requests, row.total_amount⟩ }
        else if row.processor = "fallback" then
          { acc with sFallback := ⟨row.total_requests, row.total_amount⟩ }
        else acc
      foldSummaryRows rest acc1

/-- `getPaymentsSummary` (payments.controller.ts lines 37-89): race the
repository read against a 50 ms timeout; on timeout (or any error) the
catch block returns zeros for both processors; otherwise fold the rows
into the zero-initialized summary. -/
def getPaymentsSummary (env : SummaryEnv) : SummaryOut :=
  if env.timedOut then
    zeroSummaryOut
  else
    foldSummaryRows (transactionsGetSummary env) zeroSummaryOut

/-- Counters of a given processor. -/
def SummaryCounters.get : SummaryCounters → Processor → Counters
  | c, .processorDefault => c.cDefault
  | c, .processorFallback => c.cFallback

/-- The `isFailing` flag of a given processor in a health snapshot. -/
def isFailingOf (h : HealthStatus) : Processor → Bool
  | .processorDefault => h.hDefault.isFailing
  | .processorFallback => h.hFallback.isFailing

/-- Worst-case number of delivery attempts for an item currently at
retry count `r`, assuming every attempt fails: one attempt now and,
when `addToRetryQueue` re-inserts the item (its branch condition
`retryCount ≥ maxRetries` is false), the attempts of the re-inserted
item at count `r + 1`. -/
def attemptsFrom (r : Nat) : Nat :=
  if r ≥ maxRetries then 1
  else 1 + attemptsFrom (r + 1)
termination_by maxRetries - r
decreasing_by
  simp only [maxRetries] at *
  omega

/- ### Helper lemmas -/

theorem getMarker_setMarker (m : MarkerStore) (cid : String) (ttl : Nat) :
    getMarker (setMarker m cid ttl) cid = some ttl := by
  simp [getMarker, setMarker, List.find?]

theorem getMarker_delMarker (m : MarkerStore) (cid : String) :
    getMarker (delMarker m cid) cid = none := by
  unfold getMarker delMarker
  rw [List.find?_eq_none.mpr]
  · rfl
  intro x hx
  have hne := (List.mem_filter.mp hx).2
  simp only [decide_eq_true_eq] at hne ⊢
  exact hne

theorem attemptsFrom_formula :
    ∀ k r, maxRetries - r = k → attemptsFrom r = (maxRetries - r) + 1 := by
  intro k
  induction k with
  | zero =>
      intro r h
      have hge : r ≥ maxRetries := by omega
      unfold attemptsFrom
      rw [if_pos hge]
      omega
  | succ n ih =>
      intro r h
      have hlt : ¬ r ≥ maxRetries := by omega
      unfold attemptsFrom
      rw [if_neg hlt, ih (r + 1) (by omega)]
      omega

/- ### C1 -/

/-- C1: in `createTransaction`, the summary counters for the given
processor are incremented exactly when the `ON CONFLICT DO NOTHING`
insert actually created a new ledger row for the `correlationId`; when a
row with that id already exists, both the ledger and every counter are
left unchanged. -/
theorem createTransaction_counter_iff_new_row
    (l : Ledger) (c : SummaryCounters) (cid : String) (amount : ℚ)
    (p : Processor) :
    (l.rows.any (fun r => r.correlationId = cid) = true →
        (createTransaction l c cid amount p).1 = l ∧
        (createTransaction l c cid amount p).2 = c) ∧
    (l.rows.any (fun r => r.correlationId = cid) = false →
        (createTransaction l c cid amount p).1.rows
            = l.rows ++ [⟨cid, amount, p⟩] ∧
        ((createTransaction l c cid amount p).2.get p).totalRequests
            = (c.get p).totalRequests + 1 ∧
        ((createTransaction l c cid amount p).2.get p).totalAmount
            = (c.get p).totalAmount + amount ∧
        (∀ q, q ≠ p →
          (createTransaction l c cid amount p).2.get q = c.get q)) := by
  constructor
  · intro hany
    simp [createTransaction, insertTransaction, hany]
  · intro hany
    refine ⟨by simp [createTransaction, insertTransaction, hany], ?_, ?_, ?_⟩
    · cases p <;>
        simp [createTransaction, insertTransaction, hany,
              incrementCounters, SummaryCounters.get]
    · cases p <;>
        simp [createTransaction, insertTransaction, hany,
              incrementCounters, SummaryCounters.get]
    · intro q hq
      cases p <;> cases q <;> simp at hq <;>
        simp [createTransaction, insertTransaction, hany,
              incrementCounters, SummaryCounters.get]

/-- Witness for C1 at a concrete ledger. -/
theorem createTransaction_counter_iff_new_row_witness :
    (⟨[]⟩ : Ledger).rows.any (fun r => r.correlationId = "a") = false ∧
    ((createTransaction ⟨[]⟩ ⟨⟨0, 0⟩, ⟨0, 0⟩⟩ "a" 10
        Processor.processorDefault).2.get
          Processor.processorDefault).totalRequests = 0 + 1 := by
  refine ⟨rfl, ?_⟩
  exact ((createTransaction_counter_iff_new_row ⟨[]⟩ ⟨⟨0, 0⟩, ⟨0, 0⟩⟩ "a" 10
      Processor.processorDefault).2 rfl).2.1

/- ### C2 -/

/-- C2: `addToRetryQueue` never re-inserts an item whose `retryCount`
has reached 10 — it deletes the `queue_item:` marker and sets a
`payment_failed:` marker with 24-hour TTL instead; an item below 10 is
re-inserted with `retryCount` exactly one larger, so retry counts are
strictly increasing along reschedules, and an item starting at
`retryCount = 0` undergoes at most 11 delivery attempts. -/
theorem retry_exhaustion_and_attempt_bound :
    (∀ (s : RedisState) (now : Nat) (item : QueueItem),
        maxRetries ≤ item.retryCount →
        (addToRetryQueue s now item).retryQueue = s.retryQueue ∧
        getMarker (addToRetryQueue s now item).queueItemMarker
            item.correlationId = none ∧
        getMarker (addToRetryQueue s now item).failedMarker
            item.correlationId = some 86400) ∧
    (∀ (s : RedisState) (now : Nat) (item : QueueItem),
        item.retryCount < maxRetries →
        (addToRetryQueue s now item).retryQueue =
          (now + backoffDelayMs item.retryCount,
           { item with retryCount := item.retryCount + 1,
                       nextRetryAt := now + backoffDelayMs item.retryCount })
            :: s.retryQueue) ∧
    (∀ (s : RedisState) (now : Nat) (item : QueueItem)
        (e : Nat × QueueItem),
        item.retryCount < maxRetries →
        e ∈ (addToRetryQueue s now item).retryQueue →
        e ∉ s.retryQueue →
        item.retryCount < e.2.retryCount) ∧
    attemptsFrom 0 = 11 := by
  refine ⟨?_, ?_, ?_, ?_⟩
  · intro s now item h
    have hge : item.retryCount ≥ maxRetries := h
    refine ⟨?_, ?_, ?_⟩
    · simp [addToRetryQueue, if_pos hge]
    · simp [addToRetryQueue, if_pos hge, getMarker_delMarker]
    · simp [addToRetryQueue, if_pos hge, getMarker_setMarker]
  · intro s now item h
    have hlt : ¬ item.retryCount ≥ maxRetries := by omega
    simp [addToRetryQueue, if_neg hlt]
  · intro s now item e h hmem hnot
    have hlt : ¬ item.retryCount ≥ maxRetries := by omega
    simp only [addToRetryQueue, if_neg hlt, List.mem_cons] at hmem
    rcases hmem with heq | hmem
    · subst heq
      simp
    · exact absurd hmem hnot
  · have := attemptsFrom_formula (maxRetries - 0) 0 rfl
    simpa [maxRetries] using this

/-- Witness for C2 at a concrete exhausted item and a concrete fresh
item. -/
theorem retry_exhaustion_and_attempt_bound_witness :
    (maxRetries ≤ (10 : Nat)) ∧
    getMarker (addToRetryQueue ⟨[], [], [], [], [], []⟩ 0
        ⟨"a", 1, 10, 0⟩).failedMarker "a" = some 86400 := by
  refine ⟨by decide, ?_⟩
  exact (retry_exhaustion_and_attempt_bound.1 ⟨[], [], [], [], [], []⟩ 0
      ⟨"a", 1, 10, 0⟩ (by decide)).2.2

/- ### C3 -/

/-- C3: when `addToRetryQueue` reschedules an item at retry count `r`
(moving it to attempt `r + 1`), the sorted-set score of the inserted
entry is exactly the current time plus `min(300, 2^r · 5)` seconds
(times are epoch milliseconds, hence the factor 1000), the item's own
`nextRetryAt` equals that score, and the backoff is capped at 300
seconds for every `r`. -/
theorem backoff_schedule_and_cap :
    (∀ (s : RedisState) (now : Nat) (item : QueueItem),
        item.retryCount < maxRetries →
        ((addToRetryQueue s now item).retryQueue.head?.map (fun e => e.1)
            = some (now + (min 300 (2 ^ item.retryCount * 5)) * 1000) ∧
         (addToRetryQueue s now item).retryQueue.head?.map
             (fun e => e.2.nextRetryAt)
            = some (now + (min 300 (2 ^ item.retryCount * 5)) * 1000) ∧
         (addToRetryQueue s now item).retryQueue.tail = s.retryQueue)) ∧
    (∀ r : Nat, min 300 (2 ^ r * 5) ≤ 300) := by
  constructor
  · intro s now item h
    have hlt : ¬ item.retryCount ≥ maxRetries := by omega
    refine ⟨?_, ?_, ?_⟩ <;> simp [addToRetryQueue, if_neg hlt, backoffDelayMs]
  · intro r
    exact min_le_left _ _

/-- Witness for C3: at retry count 3 the entry is scheduled 40 seconds
(40000 ms) in the future. -/
theorem backoff_schedule_and_cap_witness :
    ((⟨"a", 1, 3, 0⟩ : QueueItem).retryCount < maxRetries) ∧
    (addToRetryQueue ⟨[], [], [], [], [], []⟩ 1000
        ⟨"a", 1, 3, 0⟩).retryQueue.head?.map (fun e => e.1)
      = some (1000 + (min 300 (2 ^ 3 * 5)) * 1000) := by
  refine ⟨by decide, ?_⟩
  exact (backoff_schedule_and_cap.1 ⟨[], [], [], [], [], []⟩ 1000
    ⟨"a", 1, 3, 0⟩ (by decide)).1

/- ### C10 -/

/-- C10: rescheduling a failing item changes only `retryCount`
(incremented by exactly 1) and `nextRetryAt` (now plus the backoff
delay); `correlationId` and `amount` — the remaining fields of a queue
item — are carried over unchanged. -/
theorem reschedule_preserves_identity_fields :
    ∀ (s : RedisState) (now : Nat) (item : QueueItem),
      item.retryCount < maxRetries →
      (addToRetryQueue s now item).retryQueue.head?.map (fun e => e.2)
        = some { correlationId := item.correlationId
                 amount := item.amount
                 retryCount := item.retryCount + 1
                 nextRetryAt := now + backoffDelayMs item.retryCount } ∧
      (addToRetryQueue s now item).retryQueue.tail = s.retryQueue := by
  intro s now item h
  have hlt : ¬ item.retryCount ≥ maxRetries := by omega
  constructor <;> simp [addToRetryQueue, if_neg hlt]

/-- Witness for C10 at a concrete item. -/
theorem reschedule_preserves_identity_fields_witness :
    ((⟨"xyz", 7, 2, 5⟩ : QueueItem).retryCount < maxRetries) ∧
    (addToRetryQueue ⟨[], [], [], [], [], []⟩ 100
        ⟨"xyz", 7, 2, 5⟩).retryQueue.head?.map (fun e => e.2)
      = some ⟨"xyz", 7, 2 + 1, 100 + backoffDelayMs 2⟩ := by
  refine ⟨by decide, ?_⟩
  exact (reschedule_preserves_identity_fields ⟨[], [], [], [], [], []⟩ 100
    ⟨"xyz", 7, 2, 5⟩ (by decide)).1

/- ### C4 -/

/-- C4 counterexample: `addToQueue` returns `Promise<void>`, so its
returned value does not indicate whether the insertion occurred.  At
the empty state the call inserts (the main queue grows to length 1); at
a state whose `queue_item:` marker is already set it inserts nothing
(the main queue stays empty); yet the values returned by the two calls
are identical — refuting the conjunct "returns whether insertion
actually occurred". -/
theorem enqueue_return_value_counterexample :
    addToQueue true ⟨[], [], [], [], [], []⟩ "a" 1 0
        = .ok (⟨[⟨"a", 1, 0, 0⟩], [], [], [("a", 3600)], [], []⟩, ()) ∧
    addToQueue true ⟨[], [], [], [("a", 3600)], [], []⟩ "a" 1 0
        = .ok (⟨[], [], [], [("a", 3600)], [], []⟩, ()) ∧
    (addToQueue true ⟨[], [], [], [], [], []⟩ "a" 1 0).map (fun x => x.2)
      = (addToQueue true ⟨[], [], [], [("a", 3600)], [], []⟩ "a" 1 0).map
          (fun x => x.2) := by
  refine ⟨rfl, rfl, rfl⟩

/-- C4 amended: `addToQueue` is idempotent per `correlationId` — with
the marker present it pushes nothing and leaves the state untouched;
with no marker it sets the marker with TTL 3600 s and pushes exactly
one item with `retryCount = 0` onto the head of the main queue; it
throws exactly when the coordination store is unreachable; but it
returns no indication of whether insertion occurred (its return type is
void). -/
theorem enqueue_idempotent_marker :
    (∀ (s : RedisState) (cid : String) (amt : ℚ) (now : Nat),
        (getMarker s.queueItemMarker cid).isSome = true →
        addToQueue true s cid amt now = .ok (s, ())) ∧
    (∀ (s : RedisState) (cid : String) (amt : ℚ) (now : Nat),
        getMarker s.queueItemMarker cid = none →
        addToQueue true s cid amt now =
          .ok ({ s with
                  queueItemMarker := setMarker s.queueItemMarker cid 3600
                  mainQueue := ⟨cid, amt, 0, now⟩ :: s.mainQueue }, ())) ∧
    (∀ (s : RedisState) (cid : String) (amt : ℚ) (now : Nat),
        addToQueue false s cid amt now = .error ()) ∧
    (∀ (s : RedisState) (cid : String) (amt : ℚ) (now : Nat),
        ∃ x, addToQueue true s cid amt now = .ok x) := by
  refine ⟨?_, ?_, ?_, ?_⟩
  · intro s cid amt now h
    simp [addToQueue, h]
  · intro s cid amt now h
    simp [addToQueue, h]
  · intro s cid amt now
    rfl
  · intro s cid amt now
    by_cases h : (getMarker s.queueItemMarker cid).isSome = true
    · exact ⟨(s, ()), by simp [addToQueue, h]⟩
    · refine ⟨({ s with
          queueItemMarker := setMarker s.queueItemMarker cid 3600
          mainQueue := ⟨cid, amt, 0, now⟩ :: s.mainQueue }, ()), ?_⟩
      simp only [Bool.not_eq_true] at h
      simp [addToQueue, h]

/-- Witness for C4's amended theorem at the empty state. -/
theorem enqueue_idempotent_marker_witness :
    getMarker (⟨[], [], [], [], [], []⟩ : RedisState).queueItemMarker "a"
        = none ∧
    addToQueue true ⟨[], [], [], [], [], []⟩ "a" 1 0 =
      .ok (⟨[⟨"a", 1, 0, 0⟩], [], [], [("a", 3600)], [], []⟩, ()) := by
  refine ⟨rfl, ?_⟩
  have h := enqueue_idempotent_marker.2.1 ⟨[], [], [], [], [], []⟩ "a" 1 0 rfl
  simpa [setMarker] using h

/- ### C5 -/

/-- C5: in both delivery paths (`processPayment` in the drain loop and
`processPaymentAsync` on intake) the default processor is attempted
first whenever the health snapshot marks it as not failing; the
fallback is attempted only when the default is marked failing or the
default's POST did not succeed; and a processor marked failing is never
attempted. -/
theorem processor_preference_order :
    ∀ (h : HealthStatus) (env : DeliveryEnv),
      (h.hDefault.isFailing = false →
          (processPayment h env).1.head? = some Processor.processorDefault ∧
          (processPaymentAsync h env).1.head?
              = some Processor.processorDefault) ∧
      (Processor.processorFallback ∈ (processPayment h env).1 →
          h.hFallback.isFailing = false ∧
          (h.hDefault.isFailing = true ∨
           env.attemptOk Processor.processorDefault = false)) ∧
      (Processor.processorFallback ∈ (processPaymentAsync h env).1 →
          h.hFallback.isFailing = false ∧
          (h.hDefault.isFailing = true ∨
           env.attemptOk Processor.processorDefault = false)) ∧
      (∀ p, p ∈ (processPayment h env).1 → isFailingOf h p = false) ∧
      (∀ p, p ∈ (processPaymentAsync h env).1 → isFailingOf h p = false) := by
  intro h env
  obtain ⟨⟨hd⟩, ⟨hf⟩⟩ := h
  cases hd <;> cases hf <;>
    cases had : env.attemptOk Processor.processorDefault <;>
    cases haf : env.attemptOk Processor.processorFallback <;>
      refine ⟨?_, ?_, ?_, ?_, ?_⟩ <;>
        simp_all [processPayment, processPaymentAsync, processorsToTry,
                  attemptLoop, isFailingOf]

/-- Witness for C5: default healthy and accepting. -/
theorem processor_preference_order_witness :
    ((⟨⟨false⟩, ⟨false⟩⟩ : HealthStatus).hDefault.isFailing = false) ∧
    (processPayment ⟨⟨false⟩, ⟨false⟩⟩
        ⟨fun _ => true, true⟩).1.head? = some Processor.processorDefault := by
  refine ⟨rfl, ?_⟩
  exact ((processor_preference_order ⟨⟨false⟩, ⟨false⟩⟩
      ⟨fun _ => true, true⟩).1 rfl).1

/- ### C6 -/

/-- C6 counterexample: with the coordination store and ledger reachable
and BOTH the processed-marker and the ledger row present, `createPayment`
still answers 202, enqueues, and starts asynchronous delivery — the
duplicate checks are commented out in this revision of the controller,
so the intake path never rejects a duplicate. -/
theorem intake_duplicate_not_rejected_counterexample :
    isPaymentAlreadyProcessed ⟨true, true, true, true⟩ = true ∧
    isPaymentInDatabase ⟨true, true, true, true⟩ = true ∧
    createPayment
        ⟨.vStr "11111111-1111-1111-1111-111111111111", .vNum 10⟩
        ⟨true, true, true, true⟩ =
      { status := 202, addToQueueCalled := true,
        asyncDeliveryStarted := true } := by
  exact ⟨rfl, rfl, by decide⟩

/-- C6 amended: the duplicate-check helpers exist and are fail-open
(a store or ledger error makes them answer "not a duplicate"), but
`createPayment` never consults them: its result is independent of the
processed-marker and of the ledger row, and it never returns the
409-class rejection. -/
theorem intake_ignores_duplicate_state :
    (∀ du pm lr, isPaymentAlreadyProcessed ⟨false, du, pm, lr⟩ = false) ∧
    (∀ ru pm lr, isPaymentInDatabase ⟨ru, false, pm, lr⟩ = false) ∧
    (∀ (body : RequestBody) ru du1 du2 pm1 lr1 pm2 lr2,
        createPayment body ⟨ru, du1, pm1, lr1⟩
          = createPayment body ⟨ru, du2, pm2, lr2⟩) ∧
    (∀ (body : RequestBody) (env : IntakeEnv),
        (createPayment body env).status ≠ 409) := by
  refine ⟨?_, ?_, ?_, ?_⟩
  · intro du pm lr
    rfl
  · intro ru pm lr
    rfl
  · intro body ru du1 du2 pm1 lr1 pm2 lr2
    simp [createPayment]
  · intro body env
    unfold createPayment
    split
    · simp
    · split <;> simp

/-- Witness for C6's amended theorem: a redis error makes the duplicate
check fail open. -/
theorem intake_ignores_duplicate_state_witness :
    isPaymentAlreadyProcessed ⟨false, true, true, true⟩ = false ∧
    (createPayment ⟨.vStr "x", .vNum 1⟩ ⟨true, true, true, true⟩).status
        ≠ 409 := by
  exact ⟨intake_ignores_duplicate_state.1 true true true,
         intake_ignores_duplicate_state.2.2.2 ⟨.vStr "x", .vNum 1⟩
           ⟨true, true, true, true⟩⟩

/- ### C7 -/

/-- C7 counterexample: the body `{correlationId: "", amount: 1}` is
well-typed — `correlationId` is present and a string, `amount` a
number — yet `createPayment` answers 400, because the JavaScript check
`!body.correlationId` also rejects the falsy empty string. -/
theorem empty_string_rejected_counterexample :
    (JsValue.vStr "").isString = true ∧
    (JsValue.vNum 1).isNumber = true ∧
    (createPayment ⟨.vStr "", .vNum 1⟩
        ⟨true, true, false, false⟩).status = 400 := by
  exact ⟨rfl, rfl, by decide⟩

/-- C7 amended: `createPayment` returns 400 exactly when
`correlationId` is falsy (missing, or the empty string, or the number
0, or `false`), or not a string, or `amount` is not a number; on the
400 path it neither enqueues the payment nor starts delivery. -/
theorem validation_400_iff :
    ∀ (body : RequestBody) (env : IntakeEnv),
      ((createPayment body env).status = 400 ↔
        (body.correlationId.truthy = false ∨
         body.correlationId.isString = false ∨
         body.amount.isNumber = false)) ∧
      ((createPayment body env).status = 400 →
        (createPayment body env).addToQueueCalled = false ∧
        (createPayment body env).asyncDeliveryStarted = false) := by
  intro body env
  cases ht : body.correlationId.truthy <;>
    cases hs : body.correlationId.isString <;>
      cases hn : body.amount.isNumber <;>
        cases hr : env.redisUp <;>
          simp [createPayment, ht, hs, hn, hr]

/-- Witness for C7's amended theorem: a missing `correlationId` is
rejected with 400 and nothing is enqueued. -/
theorem validation_400_iff_witness :
    ((createPayment ⟨.vUndefined, .vNum 1⟩
        ⟨true, true, false, false⟩).status = 400 ↔
      ((JsValue.vUndefined).truthy = false ∨
       (JsValue.vUndefined).isString = false ∨
       (JsValue.vNum 1).isNumber = false)) ∧
    (createPayment ⟨.vUndefined, .vNum 1⟩
        ⟨true, true, false, false⟩).addToQueueCalled = false := by
  refine ⟨(validation_400_iff ⟨.vUndefined, .vNum 1⟩
      ⟨true, true, false, false⟩).1, ?_⟩
  exact ((validation_400_iff ⟨.vUndefined, .vNum 1⟩
      ⟨true, true, false, false⟩).2 (by decide)).1

/- ### C8 -/

/-- C8: the summary read never surfaces a failure — `getPaymentsSummary`
is a total function into the two-processor summary object — and: on a
timeout of the 50 ms race, or with redis unreachable, it returns zeros
for both processors; the repository rows always name exactly `default`
and `fallback`; an absent counter hash is zero-filled; present counters
are passed through. -/
theorem summary_zero_filled_never_fails :
    ∀ env : SummaryEnv,
      ((env.timedOut = true ∨ env.redisUp = false) →
          getPaymentsSummary env = zeroSummaryOut) ∧
      ((transactionsGetSummary env).map (fun r => r.processor)
          = ["default", "fallback"]) ∧
      (env.timedOut = false → env.redisUp = true → env.hashDefault = none →
          (getPaymentsSummary env).sDefault = ⟨0, 0⟩) ∧
      (env.timedOut = false → env.redisUp = true → env.hashFallback = none →
          (getPaymentsSummary env).sFallback = ⟨0, 0⟩) ∧
      (∀ r a, env.timedOut = false → env.redisUp = true →
          env.hashDefault = some (r, a) →
          (getPaymentsSummary env).sDefault = ⟨r, a⟩) ∧
      (∀ r a, env.timedOut = false → env.redisUp = true →
          env.hashFallback = some (r, a) →
          (getPaymentsSummary env).sFallback = ⟨r, a⟩) := by
  intro env
  obtain ⟨ru, hd, hf, t⟩ := env
  cases ru <;> cases t <;>
    rcases hd with _ | ⟨r1, a1⟩ <;> rcases hf with _ | ⟨r2, a2⟩ <;>
      simp [getPaymentsSummary, transactionsGetSummary,
            redisSummaryGetSummary, zeroFillRow, foldSummaryRows,
            zeroSummaryOut]

/-- Witness for C8 at a timed-out read with populated counters. -/
theorem summary_zero_filled_never_fails_witness :
    ((⟨true, some (3, 30), some (1, 5), true⟩ : SummaryEnv).timedOut = true ∨
     (⟨true, some (3, 30), some (1, 5), true⟩ : SummaryEnv).redisUp = false) ∧
    getPaymentsSummary ⟨true, some (3, 30), some (1, 5), true⟩
        = zeroSummaryOut := by
  refine ⟨Or.inl rfl, ?_⟩
  exact (summary_zero_filled_never_fails
      ⟨true, some (3, 30), some (1, 5), true⟩).1 (Or.inl rfl)

/- ### C9 -/

/-- C9 counterexample: `getRetryableItems` is TWO separate redis
commands, not one atomic unit.  At a state whose retry queue holds one
due entry, the state after only the first command (the Lua script) has
the entry already removed from the retry queue but not yet in the
processing list — an observable partial execution distinct from the
final state, refuting "steps (a), (b) and (c) are one atomic unit" and
"no partial execution (entries removed but not pushed to processing) is
possible". -/
theorem takeDue_two_commands_counterexample :
    (retryScriptStep
        ⟨[], [(500, ⟨"a", 1, 0, 500⟩)], [], [("a", 3600)], [], []⟩
        1000).1.retryQueue = [] ∧
    (retryScriptStep
        ⟨[], [(500, ⟨"a", 1, 0, 500⟩)], [], [("a", 3600)], [], []⟩
        1000).1.processing = [] ∧
    (retryScriptStep
        ⟨[], [(500, ⟨"a", 1, 0, 500⟩)], [], [("a", 3600)], [], []⟩
        1000).1
      ≠ (getRetryableItems
          ⟨[], [(500, ⟨"a", 1, 0, 500⟩)], [], [("a", 3600)], [], []⟩
          1000).1 ∧
    (getRetryableItems
        ⟨[], [(500, ⟨"a", 1, 0, 500⟩)], [], [("a", 3600)], [], []⟩
        1000).1.processing = [⟨"a", 1, 0, 500⟩] ∧
    (getRetryableItems
        ⟨[], [(500, ⟨"a", 1, 0, 500⟩)], [], [("a", 3600)], [], []⟩
        1000).2 = [⟨"a", 1, 0, 500⟩] := by
  refine ⟨rfl, rfl, by decide, rfl, rfl⟩

/-- C9 amended: steps (a) read and (b) remove ARE one atomic unit (the
Lua script): the script returns exactly the due entries and removes
exactly those, touching nothing else, and a second execution on the
resulting state can take none of them again (no double-delivery); the
completed `getRetryableItems` then pushes every taken item into the
processing list — but that push is a separate second command, so the
three steps together are not atomic. -/
theorem takeDue_script_read_remove_atomic :
    ∀ (s : RedisState) (now : Nat),
      (retryScriptStep s now).2
          = (s.retryQueue.filter (fun e => e.1 ≤ now)).map (fun e => e.2) ∧
      (retryScriptStep (retryScriptStep s now).1 now).2 = [] ∧
      (retryScriptStep s now).1.mainQueue = s.mainQueue ∧
      (retryScriptStep s now).1.processing = s.processing ∧
      (∀ i, i ∈ (getRetryableItems s now).2 →
          i ∈ (getRetryableItems s now).1.processing) ∧
      (getRetryableItems s now).2
          = (s.retryQueue.filter (fun e => e.1 ≤ now)).map (fun e => e.2) := by
  intro s now
  have hget : getRetryableItems s now =
      if (retryScriptStep s now).2.isEmpty
      then ((retryScriptStep s now).1, [])
      else (pushProcessingStep (retryScriptStep s now).1
              (retryScriptStep s now).2,
            (retryScriptStep s now).2) := rfl
  have hnil : (s.retryQueue.filter (fun e => ¬ e.1 ≤ now)).filter
      (fun e => e.1 ≤ now) = [] := by
    induction s.retryQueue with
    | nil => rfl
    | cons e t ih =>
        rw [List.filter_cons]
        by_cases h : e.1 ≤ now
        · rw [if_neg (by simp [h])]
          exact ih
        · rw [if_pos (by simp [h]), List.filter_cons, if_neg (by simp [h])]
          exact ih
  refine ⟨rfl, ?_, rfl, rfl, ?_, ?_⟩
  · simp [retryScriptStep, hnil]
  · intro i hi
    rw [hget] at hi ⊢
    by_cases hemp : (retryScriptStep s now).2.isEmpty
    · rw [if_pos hemp] at hi
      simp at hi
    · rw [if_neg hemp] at hi ⊢
      simp only [pushProcessingStep]
      simp only [List.mem_append, List.mem_reverse]
      exact Or.inl hi
  · rw [hget]
    by_cases hemp : (retryScriptStep s now).2.isEmpty
    · rw [if_pos hemp]
      exact (List.isEmpty_iff.mp hemp).symm
    · rw [if_neg hemp]
      rfl

/-- Witness for C9's amended theorem at a one-entry retry queue. -/
theorem takeDue_script_read_remove_atomic_witness :
    ((⟨"a", 1, 0, 500⟩ : QueueItem)
        ∈ (getRetryableItems ⟨[], [(500, ⟨"a", 1, 0, 500⟩)], [], [], [], []⟩
            1000).2) ∧
    ((⟨"a", 1, 0, 500⟩ : QueueItem)
        ∈ (getRetryableItems ⟨[], [(500, ⟨"a", 1, 0, 500⟩)], [], [], [], []⟩
            1000).1.processing) := by
  refine ⟨by decide, ?_⟩
  exact (takeDue_script_read_remove_atomic
      ⟨[], [(500, ⟨"a", 1, 0, 500⟩)], [], [], [], []⟩ 1000).2.2.2.2.1
    ⟨"a", 1, 0, 500⟩ (by decide)

end Rinha
